import Mathlib

/-!
# Verification of the Ledger Aggregation Engine (src/functions/index.js)

Shallow embedding of the Firebase Cloud Functions in `src/functions/index.js`
of the Imperio-Sucata-ERP repository, and proofs about the spec's claims.

Conventions of the embedding:
* Firestore documents holding dynamic field maps, and plain JS objects used as
  maps, are modelled as association lists `List (String × α)` with JS-object
  assignment semantics: assigning to an existing key replaces its value in
  place, assigning to a fresh key appends it (`objSet`).  This matters: the
  source builds its transactional update objects by repeated assignment, so a
  later assignment to the same key *overwrites* an earlier one.
* JS numbers are modelled as `Int` (the claims under scrutiny are structural
  and do not depend on floating-point rounding).
* `x || default` field reads on scanned documents are modelled with
  `Option.getD`.
* `FieldValue.increment n` sentinels are modelled as the integer `n`; applying
  a merge-set of an update object adds each increment to the stored field
  (`applyIncrements`).
* Pagination (`BATCH_SIZE`/`startAfter`) is a resumable iteration over the
  ordered query result; its net effect is a single `forEach` over all scanned
  documents, which is how the scans are modelled (the scanned list is a field
  of the modelled store).
* Server timestamps (`updatedAt`, `generatedAt`, …) are metadata not mentioned
  by any claim and are omitted from the record models.
-/

namespace ImperioSucata

/-- JS-object read: first binding of the key, if any. -/
def objGet {α : Type} (m : List (String × α)) (k : String) : Option α :=
  match m with
  | [] => none
  | (k', v) :: rest => if k' = k then some v else objGet rest k

/-- JS-object assignment: replace the binding if the key exists, else append. -/
def objSet {α : Type} (m : List (String × α)) (k : String) (v : α) :
    List (String × α) :=
  match m with
  | [] => [(k, v)]
  | (k', v') :: rest =>
    if k' = k then (k, v) :: rest else (k', v') :: objSet rest k v

/-- Apply a list of `FieldValue.increment` bindings to a stored field map
(merge-set semantics: missing fields start at 0). -/
def applyIncrements (state : List (String × Int)) (u : List (String × Int)) :
    List (String × Int) :=
  u.foldl (fun s kv => objSet s kv.1 ((objGet s kv.1).getD 0 + kv.2)) state

/-- The `data` (date) field of a stored transaction document, as discriminated
by the backfill/month-rollup scans (index.js lines 1173–1181 and 1450–1458):
a Firestore `Timestamp` (has `.toDate`), a JS `Date`, a string, or anything
else.  The `String` payload of the first three constructors is the calendar
date key `toISOString().split("T")[0]` the value resolves to. -/
inductive TxDate where
  | timestamp (day : String)
  | jsDate (day : String)
  | str (day : String)
  | invalid
deriving DecidableEq, Repr

/-- Date extraction of the collect loops (index.js lines 1172–1184 and
1450–1461): each of the three recognised representations yields its calendar
date key; any other value makes the loop body `return` (skip the document). -/
def extractDate : TxDate → Option String
  | .timestamp d => some d
  | .jsDate d => some d
  | .str d => some d
  | .invalid => none

/-- A scanned transaction document, with the optional fields the scan code
defaults (`t.valorTotal || 0`, `t.material || "outros"`,
`(t.formaPagamento || "dinheiro").toLowerCase()`, `t.quantidade || 0`). -/
structure Txn where
  data : TxDate
  tipo : String
  valorTotal : Option Int
  material : Option String
  formaPagamento : Option String
  quantidade : Option Int
deriving DecidableEq, Repr

/-- Per-material bucket of a daily report (`materialStats[material]`). -/
structure MatStat where
  vendas : Int
  compras : Int
  quantidade : Int
  lucro : Int
  transacoes : Int
deriving DecidableEq, Repr

/-- Per-payment-method bucket of a daily report (`paymentStats[fp]`). -/
structure PayStat where
  count : Int
  total : Int
deriving DecidableEq, Repr

/-- A `daily_reports/{dateString}` document (server-timestamp metadata
omitted). -/
structure DayAgg where
  dateString : String
  totalSales : Int
  totalPurchases : Int
  totalExpenses : Int
  totalProfit : Int
  totalTransactions : Int
  salesCount : Int
  purchasesCount : Int
  expensesCount : Int
  materialStats : List (String × MatStat)
  paymentStats : List (String × PayStat)
  generatedBy : String
deriving DecidableEq, Repr

/-- The zero-initialised accumulator for one day (index.js lines 1187–1204,
1463–1480 and, for the rollup's single day, 411–425). -/
def emptyDay (ds : String) : DayAgg :=
  { dateString := ds
    totalSales := 0, totalPurchases := 0, totalExpenses := 0, totalProfit := 0
    totalTransactions := 0, salesCount := 0, purchasesCount := 0
    expensesCount := 0, materialStats := [], paymentStats := []
    generatedBy := "" }

/-- Accumulate one scanned transaction into a day accumulator.  This is the
shared per-document body of the three full-scan loops (index.js lines 449–496
in `generateHistoricalDailyReport`, 1206–1257 in `backfillHistory`, 1482–1528
in `generateMonthReport`): kind buckets, per-material stats (sales subtract
`quantidade`, purchases add it, `lucro := vendas - compras`), and per-payment
stats. -/
def applyTxnToDay (day : DayAgg) (t : Txn) : DayAgg :=
  let valorTotal := t.valorTotal.getD 0
  let material := t.material.getD "outros"
  let formaPagamento := (t.formaPagamento.getD "dinheiro").toLower
  let quantidade := t.quantidade.getD 0
  let day := { day with totalTransactions := day.totalTransactions + 1 }
  let day :=
    if t.tipo = "venda" then
      { day with totalSales := day.totalSales + valorTotal
                 salesCount := day.salesCount + 1 }
    else if t.tipo = "compra" then
      { day with totalPurchases := day.totalPurchases + valorTotal
                 purchasesCount := day.purchasesCount + 1 }
    else if t.tipo = "despesa" then
      { day with totalExpenses := day.totalExpenses + valorTotal
                 expensesCount := day.expensesCount + 1 }
    else day
  let ms := (objGet day.materialStats material).getD
    { vendas := 0, compras := 0, quantidade := 0, lucro := 0, transacoes := 0 }
  let ms :=
    if t.tipo = "venda" then
      { ms with vendas := ms.vendas + valorTotal
                quantidade := ms.quantidade - quantidade }
    else if t.tipo = "compra" then
      { ms with compras := ms.compras + valorTotal
                quantidade := ms.quantidade + quantidade }
    else ms
  let ms := { ms with transacoes := ms.transacoes + 1 }
  let ms := { ms with lucro := ms.vendas - ms.compras }
  let day := { day with materialStats := objSet day.materialStats material ms }
  let ps := (objGet day.paymentStats formaPagamento).getD
    { count := 0, total := 0 }
  let ps := { ps with count := ps.count + 1, total := ps.total + valorTotal }
  { day with paymentStats := objSet day.paymentStats formaPagamento ps }

/-! ## The mutation handler `updateInventoryAndStatsOnChange`
(index.js lines 176–380) -/

/-- A before/after snapshot of a ledger entry as destructured by the mutation
handler (index.js lines 208 and 241: `const { material, quantidade, tipo,
valorTotal } = ...`; lines 293 and 332 additionally take `formaPagamento`).
The handler reads the fields without defaulting, so this models a snapshot
whose required fields are present (per the spec, entries arrive already
validated); `formaPagamento` keeps its `|| "dinheiro"` default and the
`data` (date) field of the stored document is carried along (the handler
itself never reads it). -/
structure EntrySnap where
  tipo : String
  material : String
  quantidade : Int
  valorTotal : Int
  formaPagamento : Option String
  data : TxDate
deriving DecidableEq, Repr

/-- Inventory increment computed from the `before` snapshot (index.js line
209): `tipo === "compra" ? -quantidade : quantidade`. -/
def invIncrementBefore (tipo : String) (quantidade : Int) : Int :=
  if tipo = "compra" then -quantidade else quantidade

/-- Inventory increment computed from the `after` snapshot (index.js line
242): `tipo === "compra" ? quantidade : -quantidade`. -/
def invIncrementAfter (tipo : String) (quantidade : Int) : Int :=
  if tipo = "compra" then quantidade else -quantidade

/-- The `invUpdate` object built inside the transaction (index.js lines
200–245): the reversal block assigns
`invUpdate[`${material}.quantidade`] = increment(invIncrementBefore …)` and
the forward block assigns
`invUpdate[`${material}.quantidade`] = increment(invIncrementAfter …)`.
Both are plain JS-object assignments, so when `before` and `after` name the
same material the second assignment replaces the first. -/
def buildInvUpdate (before after : Option EntrySnap) : List (String × Int) :=
  let u : List (String × Int) := []
  let u :=
    match before with
    | none => u
    | some b =>
      objSet u (b.material ++ ".quantidade") (invIncrementBefore b.tipo b.quantidade)
  match after with
  | none => u
  | some a =>
    objSet u (a.material ++ ".quantidade") (invIncrementAfter a.tipo a.quantidade)

/-- The `statsUpdate` object built inside the transaction (index.js lines
201–269), with the same JS-object overwrite semantics (the non-increment
metadata fields `updatedAt`/`lastTransactionDate` are omitted). -/
def buildStatsUpdate (before after : Option EntrySnap) : List (String × Int) :=
  let u : List (String × Int) := []
  let u :=
    match before with
    | none => u
    | some b =>
      let u := objSet u "transacoesHoje" (-1)
      let u := objSet u "totalTransacoesMes" (-1)
      if b.tipo = "venda" then
        let u := objSet u "totalVendasMes" (-b.valorTotal)
        let u := objSet u "vendasHoje" (-b.valorTotal)
        objSet u "vendasCountMes" (-1)
      else if b.tipo = "compra" then
        let u := objSet u "totalComprasMes" (-b.valorTotal)
        let u := objSet u "comprasHoje" (-b.valorTotal)
        objSet u "comprasCountMes" (-1)
      else if b.tipo = "despesa" then
        let u := objSet u "totalDespesasMes" (-b.valorTotal)
        objSet u "despesasCountMes" (-1)
      else u
  match after with
  | none => u
  | some a =>
    let u := objSet u "transacoesHoje" 1
    let u := objSet u "totalTransacoesMes" 1
    if a.tipo = "venda" then
      let u := objSet u "totalVendasMes" a.valorTotal
      let u := objSet u "vendasHoje" a.valorTotal
      objSet u "vendasCountMes" 1
    else if a.tipo = "compra" then
      let u := objSet u "totalComprasMes" a.valorTotal
      let u := objSet u "comprasHoje" a.valorTotal
      objSet u "comprasCountMes" 1
    else if a.tipo = "despesa" then
      let u := objSet u "totalDespesasMes" a.valorTotal
      objSet u "despesasCountMes" 1
    else u

/-- Net increment the committed transaction applies to
`inventory/current`'s field `{material}.quantidade` for a given material
(0 if the update object carries no binding for it). -/
def appliedInvDelta (before after : Option EntrySnap) (material : String) : Int :=
  (objGet (buildInvUpdate before after) (material ++ ".quantidade")).getD 0

/-- The two documents the transaction touches: `inventory/current` and
`reports/live_summary`, each modelled as a field map. -/
structure LiveState where
  inventory : List (String × Int)
  stats : List (String × Int)
deriving DecidableEq, Repr

/-- The handler's single `db.runTransaction` (index.js lines 196–273): both
`transaction.set(inventoryRef, invUpdate, {merge:true})` and
`transaction.set(statsRef, statsUpdate, {merge:true})` are issued inside one
transaction, so a commit applies both update objects and an aborted commit
applies neither (`commitOk = false`).  Line 192 returns early when both
snapshots are absent. -/
def runMutationTransaction (s : LiveState) (before after : Option EntrySnap)
    (commitOk : Bool) : LiveState :=
  if before.isNone ∧ after.isNone then s
  else if commitOk then
    { inventory := applyIncrements s.inventory (buildInvUpdate before after)
      stats := applyIncrements s.stats (buildStatsUpdate before after) }
  else s

/-- The `dailyUpdate` increment object built by the handler's daily-report
block (index.js lines 284–371), with JS-object overwrite semantics.  The
`if (material)` truthiness guards (lines 303, 313, 341, 353) are modelled as
`material ≠ ""` (the empty string stands for a missing/falsy field).  The
non-increment fields `date`, `dateString`, `updatedAt` (lines 285–289) are
metadata and omitted. -/
def buildDailyUpdate (before after : Option EntrySnap) : List (String × Int) :=
  let u : List (String × Int) := []
  let u :=
    match before with
    | none => u
    | some b =>
      let fp := (b.formaPagamento.getD "dinheiro").toLower
      let u := objSet u "totalTransactions" (-1)
      let u :=
        if b.tipo = "venda" then
          let u := objSet u "totalSales" (-b.valorTotal)
          let u := objSet u "salesCount" (-1)
          if b.material ≠ "" then
            let u := objSet u ("materialStats." ++ b.material ++ ".vendas")
              (-b.valorTotal)
            objSet u ("materialStats." ++ b.material ++ ".quantidade")
              b.quantidade
          else u
        else if b.tipo = "compra" then
          let u := objSet u "totalPurchases" (-b.valorTotal)
          let u := objSet u "purchasesCount" (-1)
          if b.material ≠ "" then
            let u := objSet u ("materialStats." ++ b.material ++ ".compras")
              (-b.valorTotal)
            objSet u ("materialStats." ++ b.material ++ ".quantidade")
              (-b.quantidade)
          else u
        else if b.tipo = "despesa" then
          let u := objSet u "totalExpenses" (-b.valorTotal)
          objSet u "expensesCount" (-1)
        else u
      let u := objSet u ("paymentStats." ++ fp ++ ".total") (-b.valorTotal)
      objSet u ("paymentStats." ++ fp ++ ".count") (-1)
  match after with
  | none => u
  | some a =>
    let fp := (a.formaPagamento.getD "dinheiro").toLower
    let u := objSet u "totalTransactions" 1
    let u :=
      if a.tipo = "venda" then
        let u := objSet u "totalSales" a.valorTotal
        let u := objSet u "salesCount" 1
        if a.material ≠ "" then
          let u := objSet u ("materialStats." ++ a.material ++ ".vendas")
            a.valorTotal
          let u := objSet u ("materialStats." ++ a.material ++ ".quantidade")
            (-a.quantidade)
          objSet u ("materialStats." ++ a.material ++ ".transacoes") 1
        else u
      else if a.tipo = "compra" then
        let u := objSet u "totalPurchases" a.valorTotal
        let u := objSet u "purchasesCount" 1
        if a.material ≠ "" then
          let u := objSet u ("materialStats." ++ a.material ++ ".compras")
            a.valorTotal
          let u := objSet u ("materialStats." ++ a.material ++ ".quantidade")
            a.quantidade
          objSet u ("materialStats." ++ a.material ++ ".transacoes") 1
        else u
      else if a.tipo = "despesa" then
        let u := objSet u "totalExpenses" a.valorTotal
        objSet u "expensesCount" 1
      else u
    let u := objSet u ("paymentStats." ++ fp ++ ".total") a.valorTotal
    objSet u ("paymentStats." ++ fp ++ ".count") 1

/-- The variable bindings visible to the handler's daily-report block.  The
block runs *after* the `runTransaction` callback has returned (it starts at
index.js line 281; the callback spans lines 196–273), and `today` is declared
with `const` *inside* that callback (line 198), so in the scope where the
block executes `today` is not bound — modelled as `today? = none`.  (The
`transaction` callback parameter used at line 373 is out of scope there for
the same reason.) -/
structure HandlerScope where
  today? : Option String
deriving DecidableEq, Repr

/-- The scope in which the daily-report block actually executes: `today` is
not among its bindings (see `HandlerScope`). -/
def postTransactionScope : HandlerScope := { today? := none }

/-- The handler's daily-report block (index.js lines 281–376): resolve the
variable `today` (first used at line 282 as the target document id
`db.collection("daily_reports").doc(today)`) and build the increment object
targeted at the document keyed by `today` — the handler-time current date,
never the mutated entry's own date, which the block does not read.  Reading
an unbound identifier throws a `ReferenceError`. -/
def dailyBlock (scope : HandlerScope) (before after : Option EntrySnap) :
    Except String (String × List (String × Int)) :=
  match scope.today? with
  | none => .error "ReferenceError: today is not defined"
  | some today => .ok (today, buildDailyUpdate before after)

/-- The daily-report write the mutation handler actually performs: the block
is wrapped in `try … catch` (index.js lines 281, 374–376) whose handler only
logs, so when the block throws — which it always does, because `today` is
unbound in `postTransactionScope` — no write is issued. -/
def mutationHandlerDailyWrite (before after : Option EntrySnap) :
    Option (String × List (String × Int)) :=
  match dailyBlock postTransactionScope before after with
  | .ok w => some w
  | .error _ => none

/-! ## The query cache (index.js lines 13–42) and `getLiveSummary`
(lines 1040–1063) -/

/-- `CACHE_TTL = 60000` (index.js line 14). -/
def CACHE_TTL : Nat := 60000

/-- One `memoryCache` entry: `{ data, timestamp }` (index.js line 28). -/
structure CacheEntry (V : Type) where
  data : V
  timestamp : Nat
deriving DecidableEq, Repr

/-- `getCachedData` (index.js lines 22–30): return the cached value if one is
stored under the key and younger than the TTL; otherwise invoke the fetch
(its result is the `fetched` argument) and store it at the current time.
Returns the delivered value and the cache afterwards. -/
def getCachedData {V : Type} (cache : List (String × CacheEntry V))
    (key : String) (now : Nat) (fetched : V) :
    V × List (String × CacheEntry V) :=
  match objGet cache key with
  | some e =>
    if now - e.timestamp < CACHE_TTL then (e.data, cache)
    else (fetched, objSet cache key { data := fetched, timestamp := now })
  | none => (fetched, objSet cache key { data := fetched, timestamp := now })

/-- JS `key.startsWith(prefix)`: the prefix's characters are an initial
segment of the key's. -/
def jsStartsWith (s pre : String) : Bool :=
  pre.data.isPrefixOf s.data

/-- `invalidateCache(prefix)` (index.js lines 36–42): delete every entry whose
key starts with the prefix. -/
def invalidateCache {V : Type} (cache : List (String × CacheEntry V))
    (pre : String) : List (String × CacheEntry V) :=
  cache.filter (fun kv => ¬ jsStartsWith kv.1 pre)

/-- The mutation handler's cache-invalidation step (index.js lines 275–277):
`invalidateCache("reports_"); invalidateCache("stats");
invalidateCache("inventory")`. -/
def mutationHandlerCacheInvalidation {V : Type}
    (cache : List (String × CacheEntry V)) : List (String × CacheEntry V) :=
  invalidateCache (invalidateCache (invalidateCache cache "reports_") "stats")
    "inventory"

/-- The cache key `getLiveSummary` memoizes under (index.js line 1046). -/
def liveSummaryCacheKey : String := "live_summary"

/-- `getLiveSummary` (index.js lines 1040–1063): a cached read of
`reports/live_summary` under the key `"live_summary"`; `fetched` stands for
the result of the Firestore read the closure would perform on a cache miss. -/
def getLiveSummary {V : Type} (cache : List (String × CacheEntry V))
    (now : Nat) (fetched : V) : V × List (String × CacheEntry V) :=
  getCachedData cache liveSummaryCacheKey now fetched

/-! ## The scan-based jobs: `generateHistoricalDailyReport`
(index.js lines 382–508), `backfillHistory` (lines 1111–1398) and
`generateMonthReport` (lines 1400–1568) -/

/-- `reports/live_summary` as a record (server-timestamp metadata omitted). -/
structure LiveSummary where
  totalVendasMes : Int
  totalComprasMes : Int
  totalDespesasMes : Int
  vendasCountMes : Int
  comprasCountMes : Int
  despesasCountMes : Int
  totalTransacoesMes : Int
  vendasHoje : Int
  comprasHoje : Int
  transacoesHoje : Int
deriving DecidableEq, Repr

/-- The Firestore state the scan jobs read and write.  `transactions` is the
list of documents the paginated range scan returns, in scan order. -/
structure Store where
  transactions : List Txn
  dailyReports : List (String × DayAgg)
  liveSummary : LiveSummary
deriving DecidableEq, Repr

/-- Phase 1 of `backfillHistory` (index.js lines 1144–1264) and the identical
collect loop of `generateMonthReport` (lines 1422–1531): group the scanned
transactions by their own calendar date into `dailyData`, skipping documents
whose `data` field is none of the three recognised date representations
(lines 1172–1184 / 1450–1461 — the skip happens *before*
`day.totalTransactions++` and `totalProcessed++`).  Returns the grouped map
and `totalProcessed`. -/
def collectStep (acc : List (String × DayAgg) × Nat) (t : Txn) :
    List (String × DayAgg) × Nat :=
  match extractDate t.data with
  | none => acc
  | some ds =>
    let day := (objGet acc.1 ds).getD (emptyDay ds)
    (objSet acc.1 ds (applyTxnToDay day t), acc.2 + 1)

/-- The collect loops fold `collectStep` over the scanned documents. -/
def collectDaily (txns : List Txn) : List (String × DayAgg) × Nat :=
  txns.foldl collectStep ([], 0)

/-- Insert into a `≤`-sorted list of strings. -/
def insertSorted (x : String) : List String → List String
  | [] => [x]
  | y :: ys => if x ≤ y then x :: y :: ys else y :: insertSorted x ys

/-- `Object.keys(dailyData).sort()` (index.js line 1274): ascending string
sort of the date keys. -/
def sortStrings (l : List String) : List String :=
  l.foldr insertSorted []

/-- Finalize one day before writing it (index.js lines 1283–1286 / 1539–1541):
`totalProfit := totalSales - totalPurchases - totalExpenses` and stamp
`generatedBy`. -/
def finalizeDay (day : DayAgg) (generator : String) : DayAgg :=
  { day with
      totalProfit := day.totalSales - day.totalPurchases - day.totalExpenses
      generatedBy := generator }

/-- Phase 2 of `backfillHistory` (index.js lines 1270–1315) and the commit
loop of `generateMonthReport` (lines 1533–1557): for each date key, finalize
the day; if `forceOverwrite` is false and a `daily_reports` document already
exists for the key, skip it (count as skipped); otherwise write it (count as
created).  Batching (`WRITE_BATCH_SIZE`) only groups the writes and does not
change the resulting documents, so the writes are applied directly.  Returns
the resulting `daily_reports` collection and the (created, skipped)
counters. -/
def commitStep (dailyData : List (String × DayAgg)) (force : Bool)
    (generator : String) (acc : List (String × DayAgg) × Nat × Nat)
    (k : String) : List (String × DayAgg) × Nat × Nat :=
  match objGet dailyData k with
  | none => acc
  | some day0 =>
    let day := finalizeDay day0 generator
    if force = false ∧ (objGet acc.1 k).isSome then
      (acc.1, acc.2.1, acc.2.2 + 1)
    else
      (objSet acc.1 k day, acc.2.1 + 1, acc.2.2)

/-- The commit loops fold `commitStep` over the date keys, starting from the
existing `daily_reports` collection and zeroed counters. -/
def commitDays (reports : List (String × DayAgg))
    (dailyData : List (String × DayAgg)) (keys : List String)
    (force : Bool) (generator : String) :
    List (String × DayAgg) × Nat × Nat :=
  keys.foldl (commitStep dailyData force generator) (reports, 0, 0)

/-- The monthly counters recomputed by Phase 3 of `backfillHistory`
(index.js lines 1343–1362). -/
structure MonthStats where
  totalVendasMes : Int
  totalComprasMes : Int
  totalDespesasMes : Int
  vendasCountMes : Int
  comprasCountMes : Int
  despesasCountMes : Int
  totalTransacoesMes : Int
deriving DecidableEq, Repr

/-- The zeroed monthly counters (index.js lines 1343–1351). -/
def zeroMonthStats : MonthStats :=
  { totalVendasMes := 0, totalComprasMes := 0, totalDespesasMes := 0
    vendasCountMes := 0, comprasCountMes := 0, despesasCountMes := 0
    totalTransacoesMes := 0 }

/-- One step of Phase 3's sum (index.js lines 1353–1362), restricted to the
documents the id-range query `[monthLo, monthHi]` returns: a report outside
the range contributes nothing. -/
def monthStep (monthLo monthHi : String) (acc : MonthStats)
    (kv : String × DayAgg) : MonthStats :=
  if monthLo ≤ kv.1 ∧ kv.1 ≤ monthHi then
    { totalVendasMes := acc.totalVendasMes + kv.2.totalSales
      totalComprasMes := acc.totalComprasMes + kv.2.totalPurchases
      totalDespesasMes := acc.totalDespesasMes + kv.2.totalExpenses
      vendasCountMes := acc.vendasCountMes + kv.2.salesCount
      comprasCountMes := acc.comprasCountMes + kv.2.purchasesCount
      despesasCountMes := acc.despesasCountMes + kv.2.expensesCount
      totalTransacoesMes := acc.totalTransacoesMes + kv.2.totalTransactions }
  else acc

/-- Phase 3's sum (index.js lines 1329–1362): over every `daily_reports`
document whose id lies in the current month's `[monthLo, monthHi]` id range,
sum `totalSales`, `totalPurchases`, `totalExpenses`, the per-kind counts and
`totalTransactions` into the monthly counters. -/
def monthSum (reports : List (String × DayAgg)) (monthLo monthHi : String) :
    MonthStats :=
  reports.foldl (monthStep monthLo monthHi) zeroMonthStats

/-- Phase 3's merge-set into `reports/live_summary` (index.js lines
1364–1371): the seven monthly counters are replaced, every other field of the
document is left as it was. -/
def mergeMonthIntoLive (live : LiveSummary) (ms : MonthStats) : LiveSummary :=
  { live with
      totalVendasMes := ms.totalVendasMes
      totalComprasMes := ms.totalComprasMes
      totalDespesasMes := ms.totalDespesasMes
      vendasCountMes := ms.vendasCountMes
      comprasCountMes := ms.comprasCountMes
      despesasCountMes := ms.despesasCountMes
      totalTransacoesMes := ms.totalTransacoesMes }

/-- Result payload of `backfillHistory` (index.js lines 1377–1387). -/
structure BackfillResult where
  totalTransactionsProcessed : Nat
  daysCreated : Nat
  daysSkipped : Nat
deriving DecidableEq, Repr

/-- Output of a `backfillHistory` run: the store afterwards and the reported
counters. -/
structure BackfillOut where
  store : Store
  res : BackfillResult
deriving DecidableEq, Repr

/-- `backfillHistory` (index.js lines 1111–1398).  `monthLo`/`monthHi` are the
current month's first/last date keys computed at lines 1320–1326 (abstracting
the wall clock).  Phase 1 collects `store.transactions` into `dailyData`;
Phase 2 commits the finalized days in ascending key order with the
skip-existing policy; Phase 3 recomputes the monthly counters from the
committed `daily_reports` and merge-writes them into `reports/live_summary`.
The ledger itself is never written. -/
def backfillHistory (store : Store) (force : Bool)
    (monthLo monthHi : String) : BackfillOut :=
  let collected := collectDaily store.transactions
  let dailyData := collected.1
  let dateKeys := sortStrings (dailyData.map Prod.fst)
  let committed := commitDays store.dailyReports dailyData dateKeys force
    "backfillHistory"
  let reports := committed.1
  let live := mergeMonthIntoLive store.liveSummary
    (monthSum reports monthLo monthHi)
  { store := { store with dailyReports := reports, liveSummary := live }
    res := { totalTransactionsProcessed := collected.2
             daysCreated := committed.2.1
             daysSkipped := committed.2.2 } }

/-- `generateMonthReport` (index.js lines 1400–1568): the same collect loop
over the month's scanned transactions, then the same skip-existing commit
loop (iterating `Object.entries(dailyData)` in insertion order, lines
1538–1555; no Phase 3).  Returns the `daily_reports` collection afterwards
and the `(transactionsProcessed, daysCreated, daysSkipped)` counters. -/
def generateMonthReport (txns : List Txn)
    (reports : List (String × DayAgg)) (force : Bool) :
    (List (String × DayAgg)) × Nat × Nat × Nat :=
  let collected := collectDaily txns
  let dailyData := collected.1
  let committed := commitDays reports dailyData (dailyData.map Prod.fst) force
    "generateMonthReport"
  (committed.1, collected.2, committed.2.1, committed.2.2)

/-- The accumulation of `generateHistoricalDailyReport`'s single-day scan
(index.js lines 409–501): fold yesterday's scanned transactions into the
zero-initialised day, then set
`totalProfit := totalSales - totalPurchases - totalExpenses` (lines
500–501). -/
def rollupOfDay (txns : List Txn) (dateString : String) : DayAgg :=
  let stats := txns.foldl applyTxnToDay (emptyDay dateString)
  { stats with
      totalProfit := stats.totalSales - stats.totalPurchases -
        stats.totalExpenses }

/-- `generateHistoricalDailyReport` (index.js lines 382–508): `dateString` is
yesterday's date key (lines 391–393) and `txns` the transactions the paged
scan returns for `[yesterday 00:00, yesterday 23:59:59.999]`.  If a
`daily_reports` document for the key already exists the run returns without
writing (lines 395–402); otherwise it writes the single accumulated day
(line 503). -/
def generateHistoricalDailyReport (reports : List (String × DayAgg))
    (txns : List Txn) (dateString : String) : List (String × DayAgg) :=
  if (objGet reports dateString).isSome then reports
  else objSet reports dateString (rollupOfDay txns dateString)

/-! ## The stock threshold monitor `checkLowStock`
(index.js lines 898–992) -/

/-- The configured per-material minimum stock levels (index.js lines
919–943). -/
def minLevels (material : String) : Option Int :=
  match material with
  | "ferro" => some 100
  | "aluminio" => some 80
  | "cobre" => some 50
  | "latinha" => some 200
  | "panela" => some 25
  | "bloco2" => some 15
  | "chapa" => some 50
  | "perfil pintado" => some 30
  | "perfil natural" => some 30
  | "bloco" => some 20
  | "metal" => some 60
  | "inox" => some 30
  | "bateria" => some 40
  | "motor_gel" => some 10
  | "roda" => some 15
  | "papelao" => some 100
  | "rad_metal" => some 35
  | "rad_cobre" => some 30
  | "rad_chapa" => some 25
  | "tela" => some 50
  | "antimonio" => some 10
  | "cabo_ai" => some 40
  | "tubo_limpo" => some 20
  | _ => none

/-- One entry of a low-stock notification's `items` list (index.js lines
950–955). -/
structure LowStockItem where
  material : String
  quantidade : Int
  minLevel : Int
  nivel : String
deriving DecidableEq, Repr

/-- The qualifying-item scan of `checkLowStock` (index.js lines 945–957):
walk the `inventory/current` entries (a material and its stored
`quantidade`), skip the `lastUpdated` metadata field, use the configured
minimum (default 10), and push every material with `quantidade <= minLevel`,
classified `"critico"` when `quantidade < minLevel / 2` (written
`2 * quantidade < minLevel` to model JS's exact division) else `"baixo"`. -/
def computeLowStock (inventory : List (String × Int)) : List LowStockItem :=
  inventory.foldl
    (fun acc kv =>
      if kv.1 = "lastUpdated" then acc
      else
        let minLevel := (minLevels kv.1).getD 10
        if kv.2 ≤ minLevel then
          acc ++ [{ material := kv.1, quantidade := kv.2, minLevel := minLevel
                    nivel := if 2 * kv.2 < minLevel then "critico"
                             else "baixo" }]
        else acc)
    []

/-- A `notifications` document (server timestamps omitted). -/
structure Notification where
  ntype : String
  title : String
  message : String
  items : List LowStockItem
  read : Bool
deriving DecidableEq, Repr

/-- The predicate of the dedup query (index.js lines 960–965):
`type == "low_stock" && read == false`. -/
def isUnreadLowStock (n : Notification) : Bool :=
  n.ntype = "low_stock" ∧ n.read = false

/-- Number of unread low-stock notifications in the collection. -/
def unreadLowStockCount (ns : List Notification) : Nat :=
  (ns.filter isUnreadLowStock).length

/-- The notification message (index.js lines 971 and 983). -/
def lowStockMessage (n : Nat) : String :=
  toString n ++ " " ++
    (if n = 1 then "material está" else "materiais estão") ++
    " com estoque baixo"

/-- Update the first unread low-stock notification in place (index.js lines
981–985): replace its `items` and `message`, leaving `type`, `title` and
`read` untouched. -/
def updateFirstUnreadLowStock (ns : List Notification)
    (items : List LowStockItem) (msg : String) : List Notification :=
  match ns with
  | [] => []
  | n :: rest =>
    if isUnreadLowStock n then { n with items := items, message := msg } :: rest
    else n :: updateFirstUnreadLowStock rest items msg

/-- `checkLowStock` (index.js lines 898–992), acting on the notifications
collection: compute the qualifying items; if none, do nothing; otherwise
query for an existing unread low-stock notification (`limit(1)`, lines
960–965) — if the query is empty, `add` a new notification listing all
qualifying items (lines 967–975), else update the found document's `items`
and `message` in place (lines 981–985). -/
def checkLowStock (inventory : List (String × Int))
    (ns : List Notification) : List Notification :=
  let items := computeLowStock inventory
  if items.isEmpty then ns
  else if (ns.filter isUnreadLowStock).isEmpty then
    ns ++ [{ ntype := "low_stock", title := "Alerta de Estoque Baixo"
             message := lowStockMessage items.length, items := items
             read := false }]
  else updateFirstUnreadLowStock ns items (lowStockMessage items.length)

/-! ## Spec-side definitions for refinement comparisons -/

/-- The inventory delta exactly as the spec's §4.1 words it, for comparison
with the source's increment formulas: `+quantity` for purchase, `−quantity`
for sale, `0` for expense, multiplied by the sign (`+1` apply / `−1`
reverse). -/
def specInventoryDelta (tipo : String) (quantidade sign : Int) : Int :=
  if tipo = "compra" then sign * quantidade
  else if tipo = "venda" then -(sign * quantidade)
  else 0

/-- The inventory delta as the *amended* claim words it: `+quantity` for
purchase and `−quantity` for every other kind (sale and expense alike),
multiplied by the sign. -/
def amendedInventoryDelta (tipo : String) (quantidade sign : Int) : Int :=
  if tipo = "compra" then sign * quantidade else -(sign * quantidade)

/-! ## Theorems for the claims -/

/-- **C1, counterexample.**  The claim says the inventory delta for an
expense snapshot is `0`.  The source's forward increment
(`tipo === "compra" ? quantidade : -quantidade`, index.js line 242) applied
to an expense snapshot with `quantidade = 5` is `−5`, not the `0` the spec's
§4.1 prescribes. -/
theorem claim1_expense_delta_counterexample :
    invIncrementAfter "despesa" 5 = -5
    ∧ specInventoryDelta "despesa" 5 1 = 0
    ∧ invIncrementAfter "despesa" 5 ≠ specInventoryDelta "despesa" 5 1 := by
  refine ⟨by decide, by decide, by decide⟩

/-- **C1, amended.**  For every ledger-entry snapshot, the inventory
increment the mutation handler computes for the entry's material is
`+quantity` when the kind is purchase and `−quantity` for every *other* kind
— sale and expense alike — with the sign negated when the snapshot is the
`before` state being reversed.  (The sale and purchase cases agree with the
original claim; only the expense case differs.) -/
theorem claim1_inventory_delta_amended (tipo : String) (quantidade : Int) :
    invIncrementAfter tipo quantidade = amendedInventoryDelta tipo quantidade 1
    ∧ invIncrementBefore tipo quantidade
      = amendedInventoryDelta tipo quantidade (-1)
    ∧ invIncrementBefore tipo quantidade = -(invIncrementAfter tipo quantidade)
    ∧ invIncrementAfter "compra" quantidade = quantidade
    ∧ invIncrementAfter "venda" quantidade = -quantidade := by
  unfold invIncrementAfter invIncrementBefore amendedInventoryDelta
  by_cases h : tipo = "compra" <;> simp [h]

/-- **C2.**  Updating an entry from `{kind=purchase, material=ferro,
quantity=10}` to `{kind=purchase, material=ferro, quantity=3}` should change
the inventory by `−10 + 3 = −7`.  The handler computes the reversal increment
`−10` (line 211) and the forward increment `+3` (line 244), but both are
assigned to the *same* key `"ferro.quantidade"` of the plain JS object
`invUpdate`, so the second assignment overwrites the first and the committed
transaction increments the inventory by exactly `+3`. -/
theorem claim2_reversal_overwritten :
    invIncrementBefore "compra" 10 = -10
    ∧ invIncrementAfter "compra" 3 = 3
    ∧ appliedInvDelta
        (some { tipo := "compra", material := "ferro", quantidade := 10
                valorTotal := 100, formaPagamento := none
                data := .timestamp "2024-01-15" })
        (some { tipo := "compra", material := "ferro", quantidade := 3
                valorTotal := 30, formaPagamento := none
                data := .timestamp "2024-01-15" })
        "ferro" = 3
    ∧ (3 : Int) ≠ -7 := by
  refine ⟨by decide, by decide, by decide, by decide⟩

/-- **C3, counterexample.**  An update to a historical sale dated
`2024-01-15`, processed on `2025-06-01`, must per the claim apply its deltas
to the DailyAggregate keyed `2024-01-15`.  The handler's daily-report block
performs no write at all (`today` is unbound where the block runs, so it
throws and the error is swallowed), and even under a binding for `today` the
block targets the document keyed by the *current* date `2025-06-01`, which it
never derives from the entry's own `data` field. -/
theorem claim3_historical_date_counterexample :
    mutationHandlerDailyWrite none
        (some { tipo := "venda", material := "ferro", quantidade := 20
                valorTotal := 100, formaPagamento := none
                data := .timestamp "2024-01-15" }) = none
    ∧ dailyBlock { today? := some "2025-06-01" } none
        (some { tipo := "venda", material := "ferro", quantidade := 20
                valorTotal := 100, formaPagamento := none
                data := .timestamp "2024-01-15" })
      = .ok ("2025-06-01",
          buildDailyUpdate none
            (some { tipo := "venda", material := "ferro", quantidade := 20
                    valorTotal := 100, formaPagamento := none
                    data := .timestamp "2024-01-15" }))
    ∧ ("2025-06-01" : String) ≠ "2024-01-15" := by
  refine ⟨rfl, rfl, by decide⟩

/-- **C3, amended.**  For every mutation event, the handler's daily-aggregate
step commits no write at all: its target document is keyed by the *current*
date (`today`), not the mutated entry's own date — but `today` is declared
inside the transaction callback and is out of scope where the block runs, so
the block throws a `ReferenceError` that the surrounding `try/catch` only
logs.  No DailyAggregate record (the entry's historical day included) is
updated by the mutation handler; repair is left to the rollup/backfill
jobs. -/
theorem claim3_daily_write_amended (before after : Option EntrySnap)
    (today : String) :
    mutationHandlerDailyWrite before after = none
    ∧ dailyBlock { today? := some today } before after
      = .ok (today, buildDailyUpdate before after) := by
  exact ⟨rfl, rfl⟩

/-- **C4.**  The mutation handler invalidates the cache prefixes
`"reports_"`, `"stats"` and `"inventory"` (index.js lines 275–277), but
`getLiveSummary` memoizes under the key `"live_summary"` (line 1046), which
none of those prefixes matches.  Concretely: a live-summary value cached at
`t = 1000` before a mutation survives the handler's invalidation, and a
`getLiveSummary` call at `t = 1500` (inside the 60 s TTL) after the mutation
returns that pre-mutation value `0` — not the fresh value `7` a Firestore
read would produce. -/
theorem claim4_live_summary_cache_not_invalidated :
    jsStartsWith liveSummaryCacheKey "reports_" = false
    ∧ jsStartsWith liveSummaryCacheKey "stats" = false
    ∧ jsStartsWith liveSummaryCacheKey "inventory" = false
    ∧ (getLiveSummary
        (mutationHandlerCacheInvalidation
          [(liveSummaryCacheKey,
            ({ data := 0, timestamp := 1000 } : CacheEntry Int))])
        1500 7).1 = 0
    ∧ (0 : Int) ≠ 7 := by
  refine ⟨by decide, by decide, by decide, by decide, by decide⟩

/-- **C5.**  The handler's inventory and live-summary updates are issued as
two merge-sets inside one `db.runTransaction` (index.js lines 196–273), so
every execution either commits both — the inventory map receives the merged
`invUpdate` increments and the live-summary map the merged `statsUpdate`
increments — or commits neither, leaving both records exactly as they were.
No execution updates one of the two records without the other. -/
theorem claim5_inventory_stats_atomic (s : LiveState)
    (before after : Option EntrySnap) (commitOk : Bool) :
    ((runMutationTransaction s before after commitOk).inventory
        = applyIncrements s.inventory (buildInvUpdate before after)
      ∧ (runMutationTransaction s before after commitOk).stats
        = applyIncrements s.stats (buildStatsUpdate before after))
    ∨ ((runMutationTransaction s before after commitOk).inventory
        = s.inventory
      ∧ (runMutationTransaction s before after commitOk).stats
        = s.stats) := by
  unfold runMutationTransaction
  split
  · exact Or.inr ⟨rfl, rfl⟩
  · split
    · exact Or.inl ⟨rfl, rfl⟩
    · exact Or.inr ⟨rfl, rfl⟩

/-! ## Concrete sample documents used by witnesses and counterexamples -/

/-- A sample valid sale transaction. -/
def sampleSale : Txn :=
  { data := .timestamp "2024-01-15", tipo := "venda", valorTotal := some 80
    material := some "ferro", formaPagamento := none, quantidade := some 20 }

/-- A sample valid sale transaction dated `2024-01-02`. -/
def sampleSaleJan2 : Txn :=
  { data := .timestamp "2024-01-02", tipo := "venda", valorTotal := some 80
    material := some "ferro", formaPagamento := none, quantidade := some 20 }

/-- A sample transaction whose `data` field is none of the recognised date
representations. -/
def sampleInvalidDate : Txn :=
  { data := .invalid, tipo := "venda", valorTotal := some 999
    material := some "cobre", formaPagamento := none, quantidade := some 1 }

/-! ## Lemmas about the JS-object operations -/

theorem objGet_objSet_self {α : Type} (m : List (String × α)) (k : String)
    (v : α) : objGet (objSet m k v) k = some v := by
  induction m with
  | nil => simp [objSet, objGet]
  | cons hd tl ih =>
    by_cases h : hd.1 = k
    · simp [objSet, objGet, h]
    · simp [objSet, objGet, h, ih]

theorem objGet_objSet_ne {α : Type} (m : List (String × α)) (k k' : String)
    (v : α) (h : k' ≠ k) : objGet (objSet m k v) k' = objGet m k' := by
  have hk : k ≠ k' := fun hh => h hh.symm
  induction m with
  | nil => simp [objSet, objGet, hk]
  | cons hd tl ih =>
    by_cases h1 : hd.1 = k
    · subst h1
      simp [objSet, objGet, hk]
    · simp [objSet, objGet, h1, ih]

theorem objGet_isSome_of_objSet {α : Type} (m : List (String × α))
    (k k' : String) (v : α) (h : (objGet m k').isSome = true) :
    (objGet (objSet m k v) k').isSome = true := by
  by_cases hk : k' = k
  · subst hk; simp [objGet_objSet_self]
  · rwa [objGet_objSet_ne m k k' v hk]

theorem objGet_isSome_iff_mem_keys {α : Type} (m : List (String × α))
    (k : String) : (objGet m k).isSome = true ↔ k ∈ m.map Prod.fst := by
  induction m with
  | nil => simp [objGet]
  | cons hd tl ih =>
    by_cases h : hd.1 = k
    · simp [objGet, h]
    · have h2 : k ≠ hd.1 := fun hh => h hh.symm
      simp [objGet, h, h2, ih]

theorem mem_insertSorted (x y : String) (l : List String) :
    x ∈ insertSorted y l ↔ x = y ∨ x ∈ l := by
  induction l with
  | nil => simp [insertSorted]
  | cons hd tl ih =>
    by_cases h : y ≤ hd
    · simp [insertSorted, h]
    · simp [insertSorted, h, ih]
      tauto

theorem mem_sortStrings (x : String) (l : List String) :
    x ∈ sortStrings l ↔ x ∈ l := by
  induction l with
  | nil => simp [sortStrings]
  | cons hd tl ih =>
    simp only [sortStrings, List.foldr] at *
    rw [mem_insertSorted, ih, List.mem_cons]

/-! ## C7: the rollup finalizer -/

/-- **C7.**  `generateHistoricalDailyReport`: when a DailyAggregate already
exists for yesterday's date key the run returns without writing anything;
otherwise it writes exactly one record — the one keyed by yesterday,
accumulated by folding the day's scanned ledger entries — whose
`totalProfit` equals `totalSales − totalPurchases − totalExpenses`, and
leaves every other date key untouched. -/
theorem claim7_rollup_finalizer (reports : List (String × DayAgg))
    (txns : List Txn) (ds : String) :
    ((objGet reports ds).isSome = true →
      generateHistoricalDailyReport reports txns ds = reports)
    ∧ (objGet reports ds = none →
        objGet (generateHistoricalDailyReport reports txns ds) ds
          = some (rollupOfDay txns ds)
        ∧ (rollupOfDay txns ds).totalProfit
          = (rollupOfDay txns ds).totalSales
            - (rollupOfDay txns ds).totalPurchases
            - (rollupOfDay txns ds).totalExpenses
        ∧ ∀ k, k ≠ ds →
            objGet (generateHistoricalDailyReport reports txns ds) k
              = objGet reports k) := by
  constructor
  · intro h
    simp [generateHistoricalDailyReport, h]
  · intro h
    have hnone : (objGet reports ds).isSome = false := by simp [h]
    refine ⟨?_, rfl, ?_⟩
    · simp [generateHistoricalDailyReport, hnone, objGet_objSet_self]
    · intro k hk
      simp [generateHistoricalDailyReport, hnone,
        objGet_objSet_ne reports ds k _ hk]

/-- Witness for C7 at concrete inputs: a report collection that already
holds the key `2024-01-01` is returned unchanged, and a run over an empty
collection writes the accumulated day for `2024-01-02`. -/
theorem claim7_rollup_finalizer_witness :
    ((objGet [("2024-01-01", emptyDay "2024-01-01")] "2024-01-01").isSome
        = true
      ∧ generateHistoricalDailyReport
          [("2024-01-01", emptyDay "2024-01-01")] [] "2024-01-01"
        = [("2024-01-01", emptyDay "2024-01-01")])
    ∧ (objGet ([] : List (String × DayAgg)) "2024-01-02" = none
      ∧ objGet
          (generateHistoricalDailyReport [] [sampleSaleJan2] "2024-01-02")
          "2024-01-02"
        = some (rollupOfDay [sampleSaleJan2] "2024-01-02")) :=
  ⟨⟨rfl,
    (claim7_rollup_finalizer [("2024-01-01", emptyDay "2024-01-01")] []
      "2024-01-01").1 rfl⟩,
   rfl,
   ((claim7_rollup_finalizer [] [sampleSaleJan2] "2024-01-02").2 rfl).1⟩

/-! ## C10: invalid-date transactions are skipped by the collect loops -/

theorem collectStep_invalid (acc : List (String × DayAgg) × Nat) (t : Txn)
    (h : extractDate t.data = none) : collectStep acc t = acc := by
  simp [collectStep, h]

/-- **C10.**  In the collect phase shared by `backfillHistory` and
`generateMonthReport`, a scanned transaction whose `data` field is neither a
Firestore `Timestamp`, a `Date`, nor a string is silently excluded: deleting
it from the scan (wherever it occurs) changes neither the grouped per-day
data nor the reported number of transactions processed, and consequently the
whole output of `generateMonthReport` is unchanged. -/
theorem claim10_invalid_date_skipped (txns1 txns2 : List Txn) (t : Txn)
    (h : extractDate t.data = none) :
    collectDaily (txns1 ++ t :: txns2) = collectDaily (txns1 ++ txns2)
    ∧ ∀ (reports : List (String × DayAgg)) (force : Bool),
        generateMonthReport (txns1 ++ t :: txns2) reports force
          = generateMonthReport (txns1 ++ txns2) reports force := by
  have key : collectDaily (txns1 ++ t :: txns2) = collectDaily (txns1 ++ txns2) := by
    unfold collectDaily
    rw [List.foldl_append, List.foldl_append, List.foldl_cons,
      collectStep_invalid _ t h]
  exact ⟨key, fun reports force => by unfold generateMonthReport; rw [key]⟩

/-- Witness for C10: a transaction whose `data` is the unrecognised value is
dropped from a concrete two-transaction scan. -/
theorem claim10_invalid_date_skipped_witness :
    extractDate sampleInvalidDate.data = none
    ∧ collectDaily [sampleSale, sampleInvalidDate] = collectDaily [sampleSale] :=
  ⟨rfl, (claim10_invalid_date_skipped [sampleSale] [] sampleInvalidDate rfl).1⟩

/-! ## C9: the stock threshold monitor's dedup invariant -/

theorem isUnreadLowStock_update (n : Notification) (items : List LowStockItem)
    (msg : String) :
    isUnreadLowStock { n with items := items, message := msg }
      = isUnreadLowStock n := rfl

theorem updateFirstUnreadLowStock_count (ns : List Notification)
    (items : List LowStockItem) (msg : String) :
    unreadLowStockCount (updateFirstUnreadLowStock ns items msg)
      = unreadLowStockCount ns := by
  unfold unreadLowStockCount
  induction ns with
  | nil => rfl
  | cons n rest ih =>
    by_cases h : isUnreadLowStock n = true
    · have h2 : isUnreadLowStock { n with items := items, message := msg }
          = true := h
      simp [updateFirstUnreadLowStock, h, List.filter_cons, h2]
    · simp [updateFirstUnreadLowStock, h, List.filter_cons, ih]

theorem updateFirstUnreadLowStock_length (ns : List Notification)
    (items : List LowStockItem) (msg : String) :
    (updateFirstUnreadLowStock ns items msg).length = ns.length := by
  induction ns with
  | nil => rfl
  | cons n rest ih =>
    by_cases h : isUnreadLowStock n = true
    · simp [updateFirstUnreadLowStock, h]
    · simp [updateFirstUnreadLowStock, h, ih]

theorem updateFirstUnreadLowStock_mem (ns : List Notification)
    (items : List LowStockItem) (msg : String)
    (h : (ns.filter isUnreadLowStock).isEmpty = false) :
    ∃ n ∈ updateFirstUnreadLowStock ns items msg,
      isUnreadLowStock n = true ∧ n.items = items := by
  induction ns with
  | nil => simp [List.filter] at h
  | cons n rest ih =>
    by_cases hh : isUnreadLowStock n = true
    · refine ⟨{ n with items := items, message := msg }, ?_, hh, rfl⟩
      simp [updateFirstUnreadLowStock, hh]
    · have h' : (rest.filter isUnreadLowStock).isEmpty = false := by
        simpa [List.filter_cons, hh] using h
      obtain ⟨x, hx, hx2⟩ := ih h'
      exact ⟨x, by simp [updateFirstUnreadLowStock, hh, hx], hx2⟩

theorem checkLowStock_count (inv : List (String × Int))
    (ns : List Notification) (h1 : computeLowStock inv ≠ [])
    (h2 : unreadLowStockCount ns ≤ 1) :
    unreadLowStockCount (checkLowStock inv ns) = 1 := by
  have hne : (computeLowStock inv).isEmpty = false := by
    cases hc : computeLowStock inv with
    | nil => exact absurd hc h1
    | cons a l => rfl
  by_cases hq : (ns.filter isUnreadLowStock).isEmpty = true
  · have h0 : ns.filter isUnreadLowStock = [] := by
      simpa using hq
    simp only [checkLowStock, hne, Bool.false_eq_true, if_false, hq, if_true]
    unfold unreadLowStockCount
    rw [List.filter_append, h0]
    simp [isUnreadLowStock]
  · have hq' : (ns.filter isUnreadLowStock).isEmpty = false := by
      simpa using hq
    have hge : 1 ≤ unreadLowStockCount ns := by
      unfold unreadLowStockCount
      rcases hc : ns.filter isUnreadLowStock with _ | ⟨a, l⟩
      · rw [hc] at hq'; simp at hq'
      · simp
    simp only [checkLowStock, hne, Bool.false_eq_true, if_false, hq']
    rw [updateFirstUnreadLowStock_count]
    omega

/-- **C9.**  A `checkLowStock` run with at least one qualifying item, starting
from a collection holding at most one unread low-stock notification, ends
with exactly one unread low-stock notification, and that notification lists
the current qualifying items: if none existed, the run appends exactly one
new notification listing all qualifying items; if one existed, the run
rewrites that record's `items` and `message` in place without changing the
number of notification documents.  Consequently a second consecutive run
(with any inventory that still has qualifying items) also ends with exactly
one unread low-stock notification. -/
theorem claim9_dedup_notification (inv : List (String × Int))
    (ns : List Notification) (h1 : computeLowStock inv ≠ [])
    (h2 : unreadLowStockCount ns ≤ 1) :
    unreadLowStockCount (checkLowStock inv ns) = 1
    ∧ (∃ n ∈ checkLowStock inv ns,
        isUnreadLowStock n = true ∧ n.items = computeLowStock inv)
    ∧ ((ns.filter isUnreadLowStock).isEmpty = true →
        checkLowStock inv ns
          = ns ++ [{ ntype := "low_stock", title := "Alerta de Estoque Baixo"
                     message := lowStockMessage (computeLowStock inv).length
                     items := computeLowStock inv, read := false }])
    ∧ ((ns.filter isUnreadLowStock).isEmpty = false →
        (checkLowStock inv ns).length = ns.length)
    ∧ (∀ inv2, computeLowStock inv2 ≠ [] →
        unreadLowStockCount (checkLowStock inv2 (checkLowStock inv ns)) = 1) := by
  have hne : (computeLowStock inv).isEmpty = false := by
    cases hc : computeLowStock inv with
    | nil => exact absurd hc h1
    | cons a l => rfl
  refine ⟨checkLowStock_count inv ns h1 h2, ?_, ?_, ?_, ?_⟩
  · by_cases hq : (ns.filter isUnreadLowStock).isEmpty = true
    · simp only [checkLowStock, hne, Bool.false_eq_true, if_false, hq, if_true]
      refine ⟨{ ntype := "low_stock", title := "Alerta de Estoque Baixo"
                message := lowStockMessage (computeLowStock inv).length
                items := computeLowStock inv, read := false }, ?_, ?_, rfl⟩
      · simp
      · rfl
    · have hq' : (ns.filter isUnreadLowStock).isEmpty = false := by
        simpa using hq
      simp only [checkLowStock, hne, Bool.false_eq_true, if_false, hq']
      exact updateFirstUnreadLowStock_mem ns _ _ hq'
  · intro hq
    simp only [checkLowStock, hne, Bool.false_eq_true, if_false, hq, if_true]
  · intro hq
    simp only [checkLowStock, hne, Bool.false_eq_true, if_false, hq]
    exact updateFirstUnreadLowStock_length ns _ _
  · intro inv2 h1'
    exact checkLowStock_count inv2 _ h1'
      (le_of_eq (checkLowStock_count inv ns h1 h2))

/-- Witness for C9 at a concrete input: `ferro` at quantity 5 (minimum 100)
qualifies; starting from an empty notifications collection, one run yields
exactly one unread low-stock notification and a second run still yields
exactly one. -/
theorem claim9_dedup_notification_witness :
    computeLowStock [("ferro", 5)] ≠ []
    ∧ unreadLowStockCount [] ≤ 1
    ∧ unreadLowStockCount (checkLowStock [("ferro", 5)] []) = 1
    ∧ unreadLowStockCount
        (checkLowStock [("ferro", 5)] (checkLowStock [("ferro", 5)] [])) = 1 :=
  ⟨by decide, by decide,
   (claim9_dedup_notification [("ferro", 5)] [] (by decide) (by decide)).1,
   (claim9_dedup_notification [("ferro", 5)] [] (by decide)
      (by decide)).2.2.2.2 [("ferro", 5)] (by decide)⟩

/-! ## C6: idempotency of the backfill engine -/

theorem commitStep_isSome (dailyData : List (String × DayAgg)) (force : Bool)
    (g : String) (acc : List (String × DayAgg) × Nat × Nat) (k0 k : String)
    (h : (objGet acc.1 k).isSome = true) :
    (objGet (commitStep dailyData force g acc k0).1 k).isSome = true := by
  rcases hdd : objGet dailyData k0 with _ | day0
  · simpa [commitStep, hdd] using h
  · by_cases hc : force = false ∧ (objGet acc.1 k0).isSome = true
    · simpa [commitStep, hdd, hc] using h
    · simp only [commitStep, hdd, hc, if_false]
      exact objGet_isSome_of_objSet acc.1 k0 k _ h

theorem commitStep_self_isSome (dailyData : List (String × DayAgg))
    (force : Bool) (g : String) (acc : List (String × DayAgg) × Nat × Nat)
    (k0 : String) (hd : (objGet dailyData k0).isSome = true) :
    (objGet (commitStep dailyData force g acc k0).1 k0).isSome = true := by
  rcases hdd : objGet dailyData k0 with _ | day0
  · rw [hdd] at hd; simp at hd
  · by_cases hc : force = false ∧ (objGet acc.1 k0).isSome = true
    · simp only [commitStep, hdd]
      rw [if_pos hc]
      exact hc.2
    · simp only [commitStep, hdd, hc, if_false]
      simp [objGet_objSet_self]

theorem commitDays_fold_isSome (dailyData : List (String × DayAgg))
    (force : Bool) (g : String) (keys : List String) :
    ∀ (acc : List (String × DayAgg) × Nat × Nat) (k : String),
      (objGet acc.1 k).isSome = true →
      (objGet (keys.foldl (commitStep dailyData force g) acc).1 k).isSome
        = true := by
  induction keys with
  | nil => intro acc k h; exact h
  | cons k0 rest ih =>
    intro acc k h
    rw [List.foldl_cons]
    exact ih _ k (commitStep_isSome dailyData force g acc k0 k h)

theorem commitDays_fold_covers (dailyData : List (String × DayAgg))
    (force : Bool) (g : String) (keys : List String) :
    ∀ (acc : List (String × DayAgg) × Nat × Nat),
      (∀ k ∈ keys, (objGet dailyData k).isSome = true) →
      ∀ k ∈ keys,
        (objGet (keys.foldl (commitStep dailyData force g) acc).1 k).isSome
          = true := by
  induction keys with
  | nil => intro acc _ k hk; simp at hk
  | cons k0 rest ih =>
    intro acc hd k hk
    rw [List.foldl_cons]
    rcases List.mem_cons.mp hk with hk0 | hkrest
    · subst hk0
      exact commitDays_fold_isSome dailyData force g rest _ k
        (commitStep_self_isSome dailyData force g acc k (hd k (by simp)))
    · exact ih (commitStep dailyData force g acc k0)
        (fun k2 hk2 => hd k2 (by simp [hk2])) k hkrest

theorem commitDays_fold_all_present (dailyData : List (String × DayAgg))
    (g : String) (keys : List String) :
    ∀ (reports : List (String × DayAgg)) (c sk : Nat),
      (∀ k ∈ keys, (objGet dailyData k).isSome = true) →
      (∀ k ∈ keys, (objGet reports k).isSome = true) →
      keys.foldl (commitStep dailyData false g) (reports, c, sk)
        = (reports, c, sk + keys.length) := by
  induction keys with
  | nil => intro reports c sk _ _; simp
  | cons k0 rest ih =>
    intro reports c sk hd hp
    rw [List.foldl_cons]
    have hd0 := hd k0 (by simp)
    have hp0 := hp k0 (by simp)
    rcases hdd : objGet dailyData k0 with _ | day0
    · rw [hdd] at hd0; simp at hd0
    · have step_eq : commitStep dailyData false g (reports, c, sk) k0
          = (reports, c, sk + 1) := by
        simp only [commitStep, hdd]
        rw [if_pos ⟨trivial, hp0⟩]
      rw [step_eq,
        ih reports c (sk + 1) (fun k hk => hd k (by simp [hk]))
          (fun k hk => hp k (by simp [hk]))]
      have harith : sk + 1 + rest.length = sk + (k0 :: rest).length := by
        simp only [List.length_cons]
        omega
      rw [harith]

/-- The output components of `backfillHistory`, spelled out (each equation is
definitional): the ledger scan list is untouched, and the resulting
`daily_reports` collection and the created/skipped counters all come from the
Phase 2 fold. -/
theorem backfillHistory_components (s : Store) (force : Bool)
    (lo hi : String) :
    (backfillHistory s force lo hi).store.transactions = s.transactions
    ∧ (backfillHistory s force lo hi).store.dailyReports
      = (commitDays s.dailyReports (collectDaily s.transactions).1
          (sortStrings ((collectDaily s.transactions).1.map Prod.fst)) force
          "backfillHistory").1
    ∧ (backfillHistory s force lo hi).res.daysCreated
      = (commitDays s.dailyReports (collectDaily s.transactions).1
          (sortStrings ((collectDaily s.transactions).1.map Prod.fst)) force
          "backfillHistory").2.1
    ∧ (backfillHistory s force lo hi).res.daysSkipped
      = (commitDays s.dailyReports (collectDaily s.transactions).1
          (sortStrings ((collectDaily s.transactions).1.map Prod.fst)) force
          "backfillHistory").2.2 :=
  ⟨rfl, rfl, rfl, rfl⟩

/-- **C6.**  Running `backfillHistory` twice over the same (static) scanned
ledger with `forceOverwrite = false` is idempotent: the second run leaves the
`daily_reports` collection exactly as the first run left it, reports
`daysCreated = 0`, and reports every one of the scan's date keys as
skipped. -/
theorem claim6_backfill_idempotent (s : Store) (lo hi : String) :
    (backfillHistory (backfillHistory s false lo hi).store false lo hi).store.dailyReports
      = (backfillHistory s false lo hi).store.dailyReports
    ∧ (backfillHistory (backfillHistory s false lo hi).store false lo hi).res.daysCreated
      = 0
    ∧ (backfillHistory (backfillHistory s false lo hi).store false lo hi).res.daysSkipped
      = (sortStrings ((collectDaily s.transactions).1.map Prod.fst)).length := by
  obtain ⟨ht1, hr1, _, _⟩ := backfillHistory_components s false lo hi
  obtain ⟨_, hr2, hc2, hs2⟩ :=
    backfillHistory_components (backfillHistory s false lo hi).store false lo hi
  rw [ht1] at hr2 hc2 hs2
  have hdkeys : ∀ k ∈ sortStrings ((collectDaily s.transactions).1.map Prod.fst),
      (objGet (collectDaily s.transactions).1 k).isSome = true := by
    intro k hk
    exact (objGet_isSome_iff_mem_keys _ k).mpr ((mem_sortStrings k _).mp hk)
  have hpres : ∀ k ∈ sortStrings ((collectDaily s.transactions).1.map Prod.fst),
      (objGet (backfillHistory s false lo hi).store.dailyReports k).isSome
        = true := by
    intro k hk
    rw [hr1]
    exact commitDays_fold_covers (collectDaily s.transactions).1 false
      "backfillHistory" _ (s.dailyReports, 0, 0) hdkeys k hk
  have key : commitDays (backfillHistory s false lo hi).store.dailyReports
      (collectDaily s.transactions).1
      (sortStrings ((collectDaily s.transactions).1.map Prod.fst)) false
      "backfillHistory"
      = ((backfillHistory s false lo hi).store.dailyReports, 0,
         (sortStrings ((collectDaily s.transactions).1.map Prod.fst)).length) := by
    unfold commitDays
    have := commitDays_fold_all_present (collectDaily s.transactions).1
      "backfillHistory"
      (sortStrings ((collectDaily s.transactions).1.map Prod.fst))
      (backfillHistory s false lo hi).store.dailyReports 0 0 hdkeys hpres
    simpa using this
  refine ⟨?_, ?_, ?_⟩
  · rw [hr2, key]
  · rw [hc2, key]
  · rw [hs2, key]

/-! ## C8: phase 3 re-derives the monthly live counters from history -/

/-- Spec-side restatement of one monthly counter: the sum of a field over the
daily reports whose date key lies within the month's id range. -/
def monthField (reports : List (String × DayAgg)) (lo hi : String)
    (f : DayAgg → Int) : Int :=
  ((reports.filter (fun kv => decide (lo ≤ kv.1 ∧ kv.1 ≤ hi))).map
    (fun kv => f kv.2)).sum

/-- Componentwise sum of monthly counters (proof helper). -/
def addMonthStats (a b : MonthStats) : MonthStats :=
  { totalVendasMes := a.totalVendasMes + b.totalVendasMes
    totalComprasMes := a.totalComprasMes + b.totalComprasMes
    totalDespesasMes := a.totalDespesasMes + b.totalDespesasMes
    vendasCountMes := a.vendasCountMes + b.vendasCountMes
    comprasCountMes := a.comprasCountMes + b.comprasCountMes
    despesasCountMes := a.despesasCountMes + b.despesasCountMes
    totalTransacoesMes := a.totalTransacoesMes + b.totalTransacoesMes }

theorem addMonthStats_zero (a : MonthStats) :
    addMonthStats a zeroMonthStats = a := by
  cases a
  simp [addMonthStats, zeroMonthStats]

theorem zero_addMonthStats (a : MonthStats) :
    addMonthStats zeroMonthStats a = a := by
  cases a
  simp [addMonthStats, zeroMonthStats]

theorem addMonthStats_assoc (a b c : MonthStats) :
    addMonthStats (addMonthStats a b) c
      = addMonthStats a (addMonthStats b c) := by
  simp [addMonthStats, add_assoc]

theorem monthStep_add (lo hi : String) (a b : MonthStats)
    (kv : String × DayAgg) :
    monthStep lo hi (addMonthStats a b) kv
      = addMonthStats a (monthStep lo hi b kv) := by
  unfold monthStep
  by_cases h : lo ≤ kv.1 ∧ kv.1 ≤ hi
  · rw [if_pos h, if_pos h]
    simp [addMonthStats, add_assoc]
  · rw [if_neg h, if_neg h]

theorem monthSum_fold (lo hi : String) (reports : List (String × DayAgg)) :
    ∀ acc : MonthStats,
      reports.foldl (monthStep lo hi) acc
        = addMonthStats acc (monthSum reports lo hi) := by
  induction reports with
  | nil => intro acc; simp [monthSum, addMonthStats_zero]
  | cons kv rest ih =>
    intro acc
    have hstep : monthStep lo hi acc kv
        = addMonthStats acc (monthStep lo hi zeroMonthStats kv) := by
      conv_lhs =>
        rw [show acc = addMonthStats acc zeroMonthStats from
          (addMonthStats_zero acc).symm]
      rw [monthStep_add]
    rw [List.foldl_cons, ih, hstep, addMonthStats_assoc]
    congr 1
    show _ = List.foldl (monthStep lo hi) zeroMonthStats (kv :: rest)
    rw [List.foldl_cons, ih]

theorem monthSum_spec (lo hi : String) (reports : List (String × DayAgg)) :
    monthSum reports lo hi =
      { totalVendasMes := monthField reports lo hi (fun d => d.totalSales)
        totalComprasMes := monthField reports lo hi (fun d => d.totalPurchases)
        totalDespesasMes := monthField reports lo hi (fun d => d.totalExpenses)
        vendasCountMes := monthField reports lo hi (fun d => d.salesCount)
        comprasCountMes :=
          monthField reports lo hi (fun d => d.purchasesCount)
        despesasCountMes :=
          monthField reports lo hi (fun d => d.expensesCount)
        totalTransacoesMes :=
          monthField reports lo hi (fun d => d.totalTransactions) } := by
  induction reports with
  | nil => simp [monthSum, monthField, zeroMonthStats]
  | cons kv rest ih =>
    have hcons : monthSum (kv :: rest) lo hi
        = addMonthStats (monthStep lo hi zeroMonthStats kv)
            (monthSum rest lo hi) := by
      show List.foldl (monthStep lo hi) zeroMonthStats (kv :: rest) = _
      rw [List.foldl_cons, monthSum_fold]
    rw [hcons, ih]
    by_cases h : lo ≤ kv.1 ∧ kv.1 ≤ hi
    · have hdec : decide (lo ≤ kv.1 ∧ kv.1 ≤ hi) = true := decide_eq_true h
      unfold monthStep monthField
      rw [if_pos h]
      simp only [List.filter_cons, hdec, if_true, List.map_cons, List.sum_cons]
      simp [addMonthStats, zeroMonthStats]
    · have hdec : decide (lo ≤ kv.1 ∧ kv.1 ≤ hi) = false :=
        decide_eq_false h
      unfold monthStep monthField
      rw [if_neg h]
      simp only [List.filter_cons, hdec, Bool.false_eq_true, if_false]
      exact zero_addMonthStats _

/-- **C8.**  After Phase 2 commits, `backfillHistory` merge-writes into
`reports/live_summary` exactly the monthly counters recomputed from the
committed `daily_reports`: each of the seven monthly counters equals the sum
of the corresponding field over all DailyAggregates whose date key lies in
the current month's `[monthLo, monthHi]` range, while the daily (`…Hoje`)
counters of the live summary are preserved by the merge. -/
theorem claim8_month_rederivation (s : Store) (force : Bool)
    (lo hi : String) :
    (backfillHistory s force lo hi).store.liveSummary
      = mergeMonthIntoLive s.liveSummary
          (monthSum (backfillHistory s force lo hi).store.dailyReports lo hi)
    ∧ (backfillHistory s force lo hi).store.liveSummary.totalVendasMes
      = monthField (backfillHistory s force lo hi).store.dailyReports lo hi
          (fun d => d.totalSales)
    ∧ (backfillHistory s force lo hi).store.liveSummary.totalComprasMes
      = monthField (backfillHistory s force lo hi).store.dailyReports lo hi
          (fun d => d.totalPurchases)
    ∧ (backfillHistory s force lo hi).store.liveSummary.totalDespesasMes
      = monthField (backfillHistory s force lo hi).store.dailyReports lo hi
          (fun d => d.totalExpenses)
    ∧ (backfillHistory s force lo hi).store.liveSummary.vendasCountMes
      = monthField (backfillHistory s force lo hi).store.dailyReports lo hi
          (fun d => d.salesCount)
    ∧ (backfillHistory s force lo hi).store.liveSummary.comprasCountMes
      = monthField (backfillHistory s force lo hi).store.dailyReports lo hi
          (fun d => d.purchasesCount)
    ∧ (backfillHistory s force lo hi).store.liveSummary.despesasCountMes
      = monthField (backfillHistory s force lo hi).store.dailyReports lo hi
          (fun d => d.expensesCount)
    ∧ (backfillHistory s force lo hi).store.liveSummary.totalTransacoesMes
      = monthField (backfillHistory s force lo hi).store.dailyReports lo hi
          (fun d => d.totalTransactions)
    ∧ (backfillHistory s force lo hi).store.liveSummary.vendasHoje
      = s.liveSummary.vendasHoje
    ∧ (backfillHistory s force lo hi).store.liveSummary.comprasHoje
      = s.liveSummary.comprasHoje
    ∧ (backfillHistory s force lo hi).store.liveSummary.transacoesHoje
      = s.liveSummary.transacoesHoje := by
  have hsum := monthSum_spec lo hi
    (backfillHistory s force lo hi).store.dailyReports
  exact ⟨rfl,
    congrArg MonthStats.totalVendasMes hsum,
    congrArg MonthStats.totalComprasMes hsum,
    congrArg MonthStats.totalDespesasMes hsum,
    congrArg MonthStats.vendasCountMes hsum,
    congrArg MonthStats.comprasCountMes hsum,
    congrArg MonthStats.despesasCountMes hsum,
    congrArg MonthStats.totalTransacoesMes hsum,
    rfl, rfl, rfl⟩

end ImperioSucata
